import Mathlib

/-!
Shallow embedding of the rent-request / house-state core of the estateb
repository (Node/Express + MySQL).  The relational store is modelled as an
explicit record of row lists; each SQL statement of the source becomes a pure
function on that record.  Row fields that are display-only (timestamps,
usernames pulled in by JOINs, image and receipt URLs not read by any claim)
are omitted; JS numbers used for money are modelled as exact rationals.
JS strings are Lean Strings, SQL NULL / JS undefined is Option.none.
-/

namespace Estate

/-- RENT_REQUEST_STATUS from utils/constants.js. -/
inductive RRStatus
| pending
| accepted
| rejected
| cancelled
deriving DecidableEq, Repr

/-- HOUSE_STATUS from utils/constants.js. -/
inductive HStatus
| available
| rented
deriving DecidableEq, Repr

/-- PAYMENT_STATUS from utils/constants.js. -/
inductive PayStatus
| pending
| paid
| overdue
deriving DecidableEq, Repr

/-- ROLE.TENANT from utils/constants.js. -/
def ROLE_TENANT : String := "tenant"

/-- ROLE.LANDLORD from utils/constants.js. -/
def ROLE_LANDLORD : String := "landlord"

/-- utils/constants.js defines ROLE with only TENANT and LANDLORD (the comment
there says admin and agent were removed to match the users-table enum, which
is enum of tenant and landlord).  A JS property access ROLE.ADMIN therefore
yields undefined, modelled as none. -/
def ROLE_ADMIN : Option String := none

/-- JS strict equality role === ROLE.ADMIN: a defined string role compared
against the undefined ROLE.ADMIN. -/
def roleIsAdmin (role : String) : Bool := some role == ROLE_ADMIN

/-- A row of the houses table (fields read by the core; created_at,
updated_at, image_url, rental_start_date and the JOINed usernames are
omitted as no claim mentions them). -/
structure House where
  id : Nat
  landlord_id : Nat
  title : String
  description : String
  address : String
  rent_amount : Rat
  bedrooms : Int
  bathrooms : Int
  status : HStatus
  is_active : Bool
  tenant_id : Option Nat
deriving DecidableEq, Repr

/-- A row of the rent_requests table. -/
structure RentRequest where
  id : Nat
  user_id : Nat
  house_id : Nat
  message : Option String
  status : RRStatus
deriving DecidableEq, Repr

/-- A row of the rent_payments table (receipt_url omitted; dates are opaque
integers). -/
structure RentPayment where
  id : Nat
  tenant_id : Nat
  house_id : Nat
  due_date : Int
  amount : Rat
  paid_amount : Rat
  status : PayStatus
  payment_method : Option String
  payment_date : Option Int
deriving DecidableEq, Repr

/-- The relational store.  nextHouseId / nextRequestId model the
AUTO_INCREMENT counters that produce result.insertId. -/
structure DB where
  houses : List House
  requests : List RentRequest
  payments : List RentPayment
  nextHouseId : Nat
  nextRequestId : Nat
deriving DecidableEq, Repr

/-- Outcome of sendErrorResponse: HTTP code and the error label. -/
structure ErrResp where
  code : Nat
  error : String
deriving DecidableEq, Repr

/-- Outcome of a controller: either the success payload or an error response. -/
inductive Result (α : Type)
| ok (a : α)
| err (e : ErrResp)
deriving DecidableEq, Repr

def Result.isOk {α : Type} : Result α → Bool
| .ok _ => true
| .err _ => false

def Result.isErr {α : Type} : Result α → Bool
| .ok _ => false
| .err _ => true

/-- House.findById: SELECT ... FROM houses WHERE h.id = ?. -/
def House.findById (db : DB) (id : Nat) : Option House :=
  db.houses.find? (fun h => h.id == id)

/-- House.create: INSERT INTO houses (...) with status AVAILABLE and
is_active true; tenant_id is not in the column list so it gets the NULL
default.  Returns the new db and result.insertId. -/
def House.create (db : DB) (landlord_id : Nat) (title description address : String)
    (rent_amount : Rat) (bedrooms bathrooms : Int) : DB × Nat :=
  let id := db.nextHouseId
  ({ db with
      houses := db.houses ++
        [{ id := id, landlord_id := landlord_id, title := title,
           description := description, address := address,
           rent_amount := rent_amount, bedrooms := bedrooms,
           bathrooms := bathrooms, status := HStatus.available,
           is_active := true, tenant_id := none }],
      nextHouseId := id + 1 }, id)

/-- The partial-attributes input of House.update / PUT api-houses-id: one
Option per column of the allowedFields whitelist in models/House.js
(image_url and rental_start_date carry no meaning for the claims and are
modelled by the single opaque image_url slot). -/
structure HouseUpdates where
  title : Option String := none
  description : Option String := none
  address : Option String := none
  rent_amount : Option Rat := none
  bedrooms : Option Int := none
  bathrooms : Option Int := none
  status : Option HStatus := none
  is_active : Option Bool := none
  tenant_id : Option (Option Nat) := none
  image_url : Option String := none
deriving DecidableEq, Repr

/-- True when at least one whitelisted field is present, i.e. the fields
array built by House.update is non-empty. -/
def HouseUpdates.hasAny (u : HouseUpdates) : Bool :=
  u.title.isSome || u.description.isSome || u.address.isSome ||
  u.rent_amount.isSome || u.bedrooms.isSome || u.bathrooms.isSome ||
  u.status.isSome || u.is_active.isSome || u.tenant_id.isSome ||
  u.image_url.isSome

/-- The SET clause of House.update applied to one row. -/
def applyHouseUpdates (u : HouseUpdates) (h : House) : House :=
  { h with
      title := u.title.getD h.title,
      description := u.description.getD h.description,
      address := u.address.getD h.address,
      rent_amount := u.rent_amount.getD h.rent_amount,
      bedrooms := u.bedrooms.getD h.bedrooms,
      bathrooms := u.bathrooms.getD h.bathrooms,
      status := u.status.getD h.status,
      is_active := u.is_active.getD h.is_active,
      tenant_id := u.tenant_id.getD h.tenant_id }

/-- House.update: whitelist-based UPDATE; returns false when the fields list
is empty or no row has the id (affectedRows = 0). -/
def House.update (db : DB) (id : Nat) (u : HouseUpdates) : DB × Bool :=
  if !u.hasAny then (db, false)
  else
    ({ db with
        houses := db.houses.map (fun h =>
          if h.id == id then applyHouseUpdates u h else h) },
     db.houses.any (fun h => h.id == id))

/-- House.updateStatusAndTenant: UPDATE houses SET status, tenant_id WHERE
id = ?; returns affectedRows greater than zero. -/
def House.updateStatusAndTenant (db : DB) (houseId : Nat) (status : HStatus)
    (tenantId : Option Nat) : DB × Bool :=
  ({ db with
      houses := db.houses.map (fun h =>
        if h.id == houseId then { h with status := status, tenant_id := tenantId } else h) },
   db.houses.any (fun h => h.id == houseId))

/-- RentRequest.findById: SELECT ... FROM rent_requests WHERE rr.id = ?. -/
def RentRequest.findById (db : DB) (id : Nat) : Option RentRequest :=
  db.requests.find? (fun r => r.id == id)

/-- RentRequest.create: INSERT with status PENDING; returns insertId. -/
def RentRequest.create (db : DB) (user_id house_id : Nat) (message : Option String) :
    DB × Nat :=
  let id := db.nextRequestId
  ({ db with
      requests := db.requests ++
        [{ id := id, user_id := user_id, house_id := house_id,
           message := message, status := RRStatus.pending }],
      nextRequestId := id + 1 }, id)

/-- Optional filters of RentRequest.findAll (status, houseId, userId). -/
structure RRFilter where
  status : Option RRStatus := none
  houseId : Option Nat := none
  userId : Option Nat := none
deriving DecidableEq, Repr

/-- The WHERE conditions assembled by RentRequest.findAll for one row. -/
def rrMatches (f : RRFilter) (r : RentRequest) : Bool :=
  (match f.status with | some s => r.status == s | none => true) &&
  (match f.houseId with | some hId => r.house_id == hId | none => true) &&
  (match f.userId with | some u => r.user_id == u | none => true)

/-- Page of rows plus the total of the separate COUNT query (which carries
no LIMIT or OFFSET). -/
structure RRPage where
  requests : List RentRequest
  total : Nat
deriving DecidableEq, Repr

/-- RentRequest.findAll: matching rows with LIMIT and OFFSET applied, and
the full count.  The SQL orders by created_at DESC; row order inside a page
is not used by any claim, only the LIMIT cap matters, so list order stands
in for the SQL order. -/
def RentRequest.findAll (db : DB) (limit offset : Nat) (f : RRFilter) : RRPage :=
  let matching := db.requests.filter (rrMatches f)
  { requests := (matching.drop offset).take limit, total := matching.length }

/-- RentRequest.findByUserId: WHERE rr.user_id = ? plus optional status and
houseId conditions, LIMIT and OFFSET, and the full count. -/
def RentRequest.findByUserId (db : DB) (userId : Nat) (limit offset : Nat)
    (status : Option RRStatus) (houseId : Option Nat) : RRPage :=
  let matching := db.requests.filter (fun r =>
    r.user_id == userId &&
    (match status with | some s => r.status == s | none => true) &&
    (match houseId with | some hId => r.house_id == hId | none => true))
  { requests := (matching.drop offset).take limit, total := matching.length }

/-- RentRequest.updateStatus: UPDATE rent_requests SET status WHERE id = ?;
returns affectedRows greater than zero. -/
def RentRequest.updateStatus (db : DB) (id : Nat) (newStatus : RRStatus) : DB × Bool :=
  ({ db with
      requests := db.requests.map (fun r =>
        if r.id == id then { r with status := newStatus } else r) },
   db.requests.any (fun r => r.id == id))

/-- RentRequest.delete: DELETE FROM rent_requests WHERE id = ?. -/
def RentRequest.del (db : DB) (id : Nat) : DB × Bool :=
  ({ db with requests := db.requests.filter (fun r => r.id != id) },
   db.requests.any (fun r => r.id == id))

/-- RentPayment.findById. -/
def RentPayment.findById (db : DB) (id : Nat) : Option RentPayment :=
  db.payments.find? (fun p => p.id == id)

/-- The partial-attributes input of RentPayment.update (allowedFields of
models/RentPayment.js restricted to the fields the core writes). -/
structure PaymentUpdates where
  tenant_id : Option Nat := none
  house_id : Option Nat := none
  due_date : Option Int := none
  amount : Option Rat := none
  paid_amount : Option Rat := none
  status : Option PayStatus := none
  payment_method : Option (Option String) := none
  payment_date : Option (Option Int) := none
deriving DecidableEq, Repr

def PaymentUpdates.hasAny (u : PaymentUpdates) : Bool :=
  u.tenant_id.isSome || u.house_id.isSome || u.due_date.isSome ||
  u.amount.isSome || u.paid_amount.isSome || u.status.isSome ||
  u.payment_method.isSome || u.payment_date.isSome

def applyPaymentUpdates (u : PaymentUpdates) (p : RentPayment) : RentPayment :=
  { p with
      tenant_id := u.tenant_id.getD p.tenant_id,
      house_id := u.house_id.getD p.house_id,
      due_date := u.due_date.getD p.due_date,
      amount := u.amount.getD p.amount,
      paid_amount := u.paid_amount.getD p.paid_amount,
      status := u.status.getD p.status,
      payment_method := u.payment_method.getD p.payment_method,
      payment_date := u.payment_date.getD p.payment_date }

/-- RentPayment.update: whitelist-based UPDATE; false when no field or no
matching row. -/
def RentPayment.update (db : DB) (id : Nat) (u : PaymentUpdates) : DB × Bool :=
  if !u.hasAny then (db, false)
  else
    ({ db with
        payments := db.payments.map (fun p =>
          if p.id == id then applyPaymentUpdates u p else p) },
     db.payments.any (fun p => p.id == id))

/-- The status string of the request body parsed against the
RENT_REQUEST_STATUS values (Object.values includes check). -/
def parseRRStatus (s : String) : Option RRStatus :=
  if s == "pending" then some RRStatus.pending
  else if s == "accepted" then some RRStatus.accepted
  else if s == "rejected" then some RRStatus.rejected
  else if s == "cancelled" then some RRStatus.cancelled
  else none

/-- Success payload of PUT api-rent-requests-id-status. -/
structure TransitionOk where
  id : Nat
  newStatus : RRStatus
deriving DecidableEq, Repr

/-- The sibling-rejection loop of the accept branch: for each fetched
pending request whose id differs from the accepted one, call
RentRequest.updateStatus(id, REJECTED). -/
def rejectSiblings (skipId : Nat) (fetched : List RentRequest) (db : DB) : DB :=
  fetched.foldl (fun d pr =>
    if pr.id != skipId then (RentRequest.updateStatus d pr.id RRStatus.rejected).1 else d) db

/-- The tail of updateRentRequestStatus: persist the new status and answer
200 on affectedRows greater than zero, else the Update Failed error. -/
def finishStatusUpdate (db : DB) (id : Nat) (newStatus : RRStatus) :
    DB × Result TransitionOk :=
  let res := RentRequest.updateStatus db id newStatus
  if !res.2 then (res.1, Result.err ⟨400, "Update Failed"⟩)
  else (res.1, Result.ok ⟨id, newStatus⟩)

/-- controllers/rentRequestController.js updateRentRequestStatus.  The
actor identity and role come from the JWT (req.user); newStatus is the raw
body string.  Note role === ROLE.ADMIN compares against undefined because
constants.js defines no ADMIN role. -/
def updateRentRequestStatus (db : DB) (id : Nat) (statusStr : String)
    (userId : Nat) (role : String) : DB × Result TransitionOk :=
  match parseRRStatus statusStr with
  | none => (db, Result.err ⟨400, "Invalid input provided."⟩)
  | some newStatus =>
    match RentRequest.findById db id with
    | none => (db, Result.err ⟨404, "Rent Request Not Found"⟩)
    | some request =>
      match House.findById db request.house_id with
      | none => (db, Result.err ⟨404, "House Not Found"⟩)
      | some house =>
        let isLandlordAuthorized := role == ROLE_LANDLORD && house.landlord_id == userId
        let isTenantAuthorized := role == ROLE_TENANT && request.user_id == userId
        let isAdminAuthorized := roleIsAdmin role
        if !isLandlordAuthorized && !isTenantAuthorized && !isAdminAuthorized then
          (db, Result.err ⟨403, "Access forbidden."⟩)
        else if (request.status == RRStatus.accepted || request.status == RRStatus.rejected) &&
            (newStatus != RRStatus.cancelled ||
              (newStatus == RRStatus.cancelled &&
                !(request.user_id == userId && role == ROLE_TENANT) &&
                !isAdminAuthorized)) then
          (db, Result.err ⟨400, "Invalid State"⟩)
        else if isLandlordAuthorized || isAdminAuthorized then
          if newStatus == RRStatus.accepted then
            if house.status != HStatus.available then
              (db, Result.err ⟨400, "House Not Available"⟩)
            else
              let db1 := (House.updateStatusAndTenant db request.house_id
                HStatus.rented (some request.user_id)).1
              let page := RentRequest.findAll db1 9999 0
                { status := some RRStatus.pending, houseId := some request.house_id }
              let db2 := rejectSiblings request.id page.requests db1
              finishStatusUpdate db2 id newStatus
          else if newStatus == RRStatus.rejected then
            if request.status == RRStatus.accepted &&
                house.tenant_id == some request.user_id then
              let db1 := (House.updateStatusAndTenant db request.house_id
                HStatus.available none).1
              finishStatusUpdate db1 id newStatus
            else finishStatusUpdate db id newStatus
          else if newStatus == RRStatus.pending then
            if !isAdminAuthorized then
              (db, Result.err ⟨400, "Invalid State"⟩)
            else finishStatusUpdate db id newStatus
          else finishStatusUpdate db id newStatus
        else
          if newStatus == RRStatus.cancelled then
            if request.status == RRStatus.accepted then
              if house.tenant_id == some request.user_id then
                let db1 := (House.updateStatusAndTenant db request.house_id
                  HStatus.available none).1
                finishStatusUpdate db1 id newStatus
              else finishStatusUpdate db id newStatus
            else finishStatusUpdate db id newStatus
          else (db, Result.err ⟨403, "Access forbidden."⟩)

/-- controllers/rentRequestController.js createRentRequest.  house_id is
the raw body value: none models an absent field, and the value 0 is falsy
in JS so it also fails the required check. -/
def createRentRequest (db : DB) (userId : Nat) (role : String)
    (house_id : Option Nat) (message : Option String) : DB × Result Nat :=
  if role != ROLE_TENANT then
    (db, Result.err ⟨403, "Access forbidden."⟩)
  else
    match house_id with
    | none => (db, Result.err ⟨400, "House ID is required."⟩)
    | some hid =>
      if hid == 0 then (db, Result.err ⟨400, "House ID is required."⟩)
      else
        match House.findById db hid with
        | none => (db, Result.err ⟨404, "House Not Found"⟩)
        | some house =>
          if house.status != HStatus.available then
            (db, Result.err ⟨400, "House Not Available"⟩)
          else if house.landlord_id == userId then
            (db, Result.err ⟨400, "Invalid Request"⟩)
          else
            let existing := RentRequest.findByUserId db userId 1 0
              (some RRStatus.pending) (some hid)
            if existing.total > 0 then
              (db, Result.err ⟨409, "Conflict"⟩)
            else
              let (db1, requestId) := RentRequest.create db userId hid message
              (db1, Result.ok requestId)

/-- controllers/rentRequestController.js deleteRentRequest.  The
pending-only restriction is commented out in the source, so any status may
be deleted by an authorized actor. -/
def deleteRentRequest (db : DB) (id : Nat) (userId : Nat) (role : String) :
    DB × Result Nat :=
  match RentRequest.findById db id with
  | none => (db, Result.err ⟨404, "Rent Request Not Found"⟩)
  | some request =>
    match House.findById db request.house_id with
    | none => (db, Result.err ⟨404, "House Not Found"⟩)
    | some house =>
      let isTenantAuthorized := role == ROLE_TENANT && request.user_id == userId
      let isLandlordAuthorized := role == ROLE_LANDLORD && house.landlord_id == userId
      let isAdminAuthorized := roleIsAdmin role
      if !isTenantAuthorized && !isLandlordAuthorized && !isAdminAuthorized then
        (db, Result.err ⟨403, "Access forbidden."⟩)
      else
        let (db1, deleted) := RentRequest.del db id
        if !deleted then (db1, Result.err ⟨400, "Delete Failed"⟩)
        else (db1, Result.ok id)

/-- controllers/houseController.js createHouse.  The required-fields check
uses JS truthiness: empty strings and the number 0 are falsy, so a zero
rent, zero bedrooms or zero bathrooms all hit the missing-fields branch. -/
def createHouse (db : DB) (landlordId : Nat) (role : String)
    (title description address : String) (rent_amount : Rat)
    (bedrooms bathrooms : Int) : DB × Result Nat :=
  if role != ROLE_LANDLORD then
    (db, Result.err ⟨403, "Access forbidden."⟩)
  else if title == "" || description == "" || address == "" ||
      rent_amount == 0 || bedrooms == 0 || bathrooms == 0 then
    (db, Result.err ⟨400, "Missing Required Fields"⟩)
  else if rent_amount <= 0 then
    (db, Result.err ⟨400, "Invalid input provided."⟩)
  else if bedrooms < 0 then
    (db, Result.err ⟨400, "Invalid input provided."⟩)
  else if bathrooms < 0 then
    (db, Result.err ⟨400, "Invalid input provided."⟩)
  else
    let (db1, houseId) := House.create db landlordId title description address
      rent_amount bedrooms bathrooms
    (db1, Result.ok houseId)

/-- controllers/houseController.js updateHouse: ownership check, field
validations, then delete updates.tenant_id before calling House.update
(tenant changes must go through the rent-request transitions). -/
def updateHouse (db : DB) (id : Nat) (userId : Nat) (role : String)
    (updates : HouseUpdates) : DB × Result Nat :=
  match House.findById db id with
  | none => (db, Result.err ⟨404, "House Not Found"⟩)
  | some house =>
    if role != ROLE_LANDLORD || house.landlord_id != userId then
      (db, Result.err ⟨403, "Access forbidden."⟩)
    else if (match updates.rent_amount with | some r => decide (r <= 0) | none => false) then
      (db, Result.err ⟨400, "Invalid input provided."⟩)
    else if (match updates.bedrooms with | some b => decide (b < 0) | none => false) then
      (db, Result.err ⟨400, "Invalid input provided."⟩)
    else if (match updates.bathrooms with | some b => decide (b < 0) | none => false) then
      (db, Result.err ⟨400, "Invalid input provided."⟩)
    else
      let updates1 := { updates with tenant_id := none }
      let (db1, updated) := House.update db id updates1
      if !updated then (db1, Result.err ⟨400, "Update Failed"⟩)
      else (db1, Result.ok id)

/-- controllers/rentPaymentController.js makePayment.  now is the clock
value new Date() is evaluated to; amount is the body amount. -/
def makePayment (db : DB) (paymentId : Nat) (userId : Nat) (role : String)
    (amount : Rat) (payment_method : Option String) (now : Int) :
    DB × Result Nat :=
  match RentPayment.findById db paymentId with
  | none => (db, Result.err ⟨404, "Payment Record Not Found"⟩)
  | some payment =>
    if role != ROLE_TENANT || payment.tenant_id != userId then
      (db, Result.err ⟨403, "Access forbidden."⟩)
    else if payment.status == PayStatus.paid then
      (db, Result.err ⟨400, "Payment Already Made"⟩)
    else
      let newPaid := payment.paid_amount + amount
      let newStatus :=
        if payment.paid_amount + amount >= payment.amount then PayStatus.paid
        else PayStatus.pending
      let res := RentPayment.update db paymentId
        { paid_amount := some newPaid,
          payment_method := some payment_method,
          payment_date := some (some now),
          status := some newStatus }
      if !res.2 then (res.1, Result.err ⟨500, "Failed to update payment record."⟩)
      else (res.1, Result.ok paymentId)

/-! Generic helper lemmas about keyed row lists. -/

/-- roleIsAdmin is false for every role string: constants.js has no ADMIN
entry, so the strict comparison against undefined never holds. -/
lemma roleIsAdmin_false (role : String) : roleIsAdmin role = false := rfl

lemma find?_beq_map {α : Type} (key : α → Nat) (k : Nat) (f : α → α)
    (hk : ∀ x, key (f x) = key x) (l : List α) :
    (l.map f).find? (fun x => key x == k) =
      (l.find? (fun x => key x == k)).map f := by
  induction l with
  | nil => rfl
  | cons a l ih =>
    by_cases h : key a = k
    · simp [List.find?, hk, h, ih]
    · have h1 : (key a == k) = false := by simp [h]
      have h2 : (key (f a) == k) = false := by simp [hk, h]
      simp [List.find?, h1, h2, ih]

lemma any_beq_map {α : Type} (key : α → Nat) (k : Nat) (f : α → α)
    (hk : ∀ x, key (f x) = key x) (l : List α) :
    (l.map f).any (fun x => key x == k) = l.any (fun x => key x == k) := by
  induction l with
  | nil => rfl
  | cons a l ih => simp [List.any, hk, ih]

/-- find?_beq_map specialized to the request id key, stated first order so
it rewrites cleanly. -/
lemma find?_id_map_rr (k : Nat) (f : RentRequest → RentRequest)
    (hk : ∀ x, (f x).id = x.id) (l : List RentRequest) :
    (l.map f).find? (fun r => r.id == k) =
      (l.find? (fun r => r.id == k)).map f :=
  find?_beq_map (fun r => r.id) k f hk l

lemma any_beq_of_mem {α : Type} (key : α → Nat) (k : Nat) (l : List α)
    (x : α) (hx : x ∈ l) (hkey : key x = k) :
    l.any (fun y => key y == k) = true := by
  exact List.any_eq_true.mpr ⟨x, hx, by simp [hkey]⟩

lemma length_filter_pos_iff {α : Type} (p : α → Bool) (l : List α) :
    0 < (l.filter p).length ↔ ∃ x ∈ l, p x = true := by
  rw [List.length_pos]
  constructor
  · intro h
    rcases List.exists_mem_of_ne_nil _ h with ⟨x, hx⟩
    exact ⟨x, (List.mem_filter.mp hx).1, (List.mem_filter.mp hx).2⟩
  · rintro ⟨x, hx, hpx⟩ hnil
    have : x ∈ l.filter p := List.mem_filter.mpr ⟨hx, hpx⟩
    simp [hnil] at this

lemma find?_some_of_mem_unique {α : Type} (key : α → Nat) (k : Nat)
    (l : List α) (hnd : (l.map key).Nodup) (v : α)
    (hfind : l.find? (fun x => key x == k) = some v)
    (x : α) (hx : x ∈ l) (hkey : key x = k) : x = v := by
  have hv : v ∈ l := List.mem_of_find?_eq_some hfind
  have hkv : key v = k := by
    have := List.find?_some hfind
    simpa using this
  exact List.inj_on_of_nodup_map hnd hx hv (by rw [hkey, hkv])

/-! Frame lemmas for the db operations. -/

lemma updateStatus_houses (db : DB) (id : Nat) (s : RRStatus) :
    ((RentRequest.updateStatus db id s).1).houses = db.houses := rfl

lemma updateStatus_payments (db : DB) (id : Nat) (s : RRStatus) :
    ((RentRequest.updateStatus db id s).1).payments = db.payments := rfl

lemma updateStatus_snd (db : DB) (id : Nat) (s : RRStatus) :
    (RentRequest.updateStatus db id s).2 =
      db.requests.any (fun r => r.id == id) := rfl

lemma updateStatusAndTenant_requests (db : DB) (hId : Nat) (s : HStatus)
    (t : Option Nat) :
    ((House.updateStatusAndTenant db hId s t).1).requests = db.requests := rfl

lemma rejectSiblings_houses (skipId : Nat) (L : List RentRequest) (db : DB) :
    (rejectSiblings skipId L db).houses = db.houses := by
  induction L generalizing db with
  | nil => rfl
  | cons pr L ih =>
    simp only [rejectSiblings, List.foldl]
    by_cases h : (pr.id != skipId) = true
    · rw [h]
      simpa [rejectSiblings] using ih _
    · simp only [Bool.not_eq_true] at h
      rw [h]
      simpa [rejectSiblings] using ih _

/-- Aggregate effect of the sibling-rejection loop on the request rows: a
row is set to rejected exactly when some fetched row other than the
accepted one carries its id. -/
lemma rejectSiblings_requests (skipId : Nat) (L : List RentRequest) (db : DB) :
    (rejectSiblings skipId L db).requests =
      db.requests.map (fun r =>
        if r.id != skipId && (L.map RentRequest.id).contains r.id
        then { r with status := RRStatus.rejected } else r) := by
  induction L generalizing db with
  | nil =>
    simp [rejectSiblings]
  | cons pr L ih =>
    simp only [rejectSiblings, List.foldl] at *
    by_cases h : (pr.id != skipId) = true
    · rw [h]
      rw [if_pos rfl, ih]
      simp only [RentRequest.updateStatus, List.map_map]
      apply List.map_congr_left
      intro r _
      simp only [Function.comp]
      have hps : pr.id ≠ skipId := by simpa [bne_iff_ne] using h
      by_cases hid : r.id = pr.id
      · have hrs : r.id ≠ skipId := by rw [hid]; exact hps
        by_cases hmem : ((L.map RentRequest.id).contains r.id) = true
        · simp [hid, hrs, hmem, List.contains, hps]
        · simp only [Bool.not_eq_true] at hmem
          simp [hid, hrs, hmem, List.contains, hps]
      · have hbe : (r.id == pr.id) = false := by simp [hid]
        simp [hbe, List.contains, hid, Ne.symm hid]
    · simp only [Bool.not_eq_true] at h
      rw [h]
      rw [if_neg (by simp), ih]
      apply List.map_congr_left
      intro r _
      have hskip : pr.id = skipId := by
        simpa [bne_iff_ne] using h
      by_cases hid : r.id = pr.id
      · have hrs : ¬(r.id ≠ skipId) := by
          rw [hid, hskip]; simp
        simp [List.contains, hrs]
      · have hbe : (pr.id == r.id) = false := by
          simp [Ne.symm hid]
        by_cases hrs : r.id = skipId
        · simp [List.contains, hrs]
        · simp [List.contains, hrs, hskip, Ne.symm hid]

/-! Shared concrete fixtures for witnesses and counterexamples. -/

/-- An available house owned by landlord 7. -/
def wHouse : House :=
  { id := 1, landlord_id := 7, title := "t", description := "d", address := "a",
    rent_amount := 100, bedrooms := 2, bathrooms := 1,
    status := HStatus.available, is_active := true, tenant_id := none }

/-- A pending request of tenant 10 for house 1. -/
def wReq : RentRequest :=
  { id := 1, user_id := 10, house_id := 1, message := none,
    status := RRStatus.pending }

/-- A second pending request, tenant 11, house 1. -/
def wReq2 : RentRequest :=
  { id := 2, user_id := 11, house_id := 1, message := none,
    status := RRStatus.pending }

/-- Base store: one available house, two pending requests. -/
def wDb : DB :=
  { houses := [wHouse], requests := [wReq, wReq2], payments := [],
    nextHouseId := 2, nextRequestId := 3 }

/-- Store after request 1 was accepted: house rented to tenant 10, request 1
accepted, request 2 rejected. -/
def wDbAcc : DB :=
  { houses := [{ wHouse with status := HStatus.rented, tenant_id := some 10 }],
    requests := [{ wReq with status := RRStatus.accepted },
                 { wReq2 with status := RRStatus.rejected }],
    payments := [], nextHouseId := 2, nextRequestId := 3 }

/-- Store holding a request already in the terminal cancelled status. -/
def wDbCan : DB :=
  { houses := [wHouse],
    requests := [{ wReq with status := RRStatus.cancelled }],
    payments := [], nextHouseId := 2, nextRequestId := 3 }

/-! C5: the revert-to-pending escape hatch. -/

/-- Every transition request with target status pending fails and leaves the
store untouched, for every actor id and every role string: the only branch
that would allow it requires role === ROLE.ADMIN, which compares against
undefined because constants.js defines no ADMIN role. -/
lemma revert_pending_always_fails (db : DB) (id userId : Nat) (role : String) :
    (updateRentRequestStatus db id "pending" userId role).1 = db ∧
    ((updateRentRequestStatus db id "pending" userId role).2).isErr = true := by
  unfold updateRentRequestStatus
  rw [show parseRRStatus "pending" = some RRStatus.pending from rfl]
  cases hf : RentRequest.findById db id with
  | none => exact ⟨rfl, rfl⟩
  | some request =>
    simp only []
    cases hh : House.findById db request.house_id with
    | none => exact ⟨rfl, rfl⟩
    | some house =>
      simp only [roleIsAdmin_false]
      by_cases hLL : (role == ROLE_LANDLORD && house.landlord_id == userId) = true <;>
      by_cases hT : (role == ROLE_TENANT && request.user_id == userId) = true <;>
      by_cases hG : request.status = RRStatus.accepted ∨ request.status = RRStatus.rejected <;>
      refine ⟨?_, ?_⟩ <;>
      simp [hLL, hT, hG, Result.isErr]

/-- C5: the claim that an elevated or admin role can perform any transition,
in particular revert a terminal rent request to pending, is false on this
code base; amended: no actor under any role can ever set a rent request
status back to pending, the transition always fails and the store is
unchanged, because the role set is tenant and landlord only and the
admin-only branch compares against the undefined ROLE.ADMIN. -/
theorem C5_revert_to_pending_never_succeeds (db : DB) (id userId : Nat)
    (role : String) :
    (updateRentRequestStatus db id "pending" userId role).1 = db ∧
    ((updateRentRequestStatus db id "pending" userId role).2).isErr = true :=
  revert_pending_always_fails db id userId role

/-- C5 counterexample: in a store holding request 1 in the terminal
cancelled status, no actor id and no role whatsoever can revert it to
pending, refuting the claimed existence of such an actor role. -/
theorem C5_counterexample_no_admin_revert :
    ¬ ∃ (userId : Nat) (role : String),
        ((updateRentRequestStatus wDbCan 1 "pending" userId role).2).isOk = true := by
  rintro ⟨userId, role, hok⟩
  have h := (revert_pending_always_fails wDbCan 1 userId role).2
  cases hres : (updateRentRequestStatus wDbCan 1 "pending" userId role).2 with
  | ok a => rw [hres] at h; simp [Result.isErr] at h
  | err e => rw [hres] at hok; simp [Result.isOk] at hok

/-! C4: rejecting a previously accepted request. -/

/-- Transitioning any request whose current status is accepted to rejected
always fails with an error and leaves the store unchanged: the
terminal-state guard fires before the reject branch, so the release-house
code in the reject branch is unreachable. -/
lemma reject_accepted_always_fails (db : DB) (id userId : Nat) (role : String)
    (request : RentRequest)
    (hfind : RentRequest.findById db id = some request)
    (hacc : request.status = RRStatus.accepted) :
    (updateRentRequestStatus db id "rejected" userId role).1 = db ∧
    ((updateRentRequestStatus db id "rejected" userId role).2).isErr = true := by
  unfold updateRentRequestStatus
  rw [show parseRRStatus "rejected" = some RRStatus.rejected from rfl, hfind]
  simp only []
  cases hh : House.findById db request.house_id with
  | none => exact ⟨rfl, rfl⟩
  | some house =>
    simp only [roleIsAdmin_false, hacc]
    refine ⟨?_, ?_⟩ <;> (split <;> simp [Result.isErr])

/-- C4: the claim that rejecting an accepted request whose requester is the
current house tenant succeeds and releases the house is false on this code
base; amended: such a transition always fails with an error and changes
nothing, because the terminal-state guard blocks every transition out of
accepted except a cancellation by the requesting tenant, making the
release-on-reject branch dead code. -/
theorem C4_reject_accepted_blocked (db : DB) (id userId : Nat) (role : String)
    (request : RentRequest) (house : House)
    (hfind : RentRequest.findById db id = some request)
    (hacc : request.status = RRStatus.accepted)
    (hhouse : House.findById db request.house_id = some house)
    (htenant : house.tenant_id = some request.user_id) :
    (updateRentRequestStatus db id "rejected" userId role).1 = db ∧
    ((updateRentRequestStatus db id "rejected" userId role).2).isErr = true :=
  reject_accepted_always_fails db id userId role request hfind hacc

/-- C4 witness: the amended theorem applied to the concrete store wDbAcc in
which request 1 is accepted and tenant 10 occupies house 1, for the
landlord actor. -/
theorem C4_reject_accepted_blocked_witness :
    (updateRentRequestStatus wDbAcc 1 "rejected" 7 ROLE_LANDLORD).1 = wDbAcc ∧
    ((updateRentRequestStatus wDbAcc 1 "rejected" 7 ROLE_LANDLORD).2).isErr = true :=
  C4_reject_accepted_blocked wDbAcc 1 7 ROLE_LANDLORD
    { wReq with status := RRStatus.accepted }
    { wHouse with status := HStatus.rented, tenant_id := some 10 }
    (by decide) (by decide) (by decide) (by decide)

/-- C4 counterexample: in the concrete accepted state, the landlord of the
house attempts the reject transition on the accepted request of the sitting
tenant; contrary to the claim it does not succeed and the house stays
rented with its tenant assigned. -/
theorem C4_counterexample_reject_accepted :
    ((updateRentRequestStatus wDbAcc 1 "rejected" 7 ROLE_LANDLORD).2).isOk = false ∧
    House.findById (updateRentRequestStatus wDbAcc 1 "rejected" 7 ROLE_LANDLORD).1 1 =
      some { wHouse with status := HStatus.rented, tenant_id := some 10 } := by
  decide

/-! C8: deleting a rent request never touches the house. -/

/-- C8: a delete of a rent request, whatever the request status (including
accepted), leaves every house row untouched; deleting an accepted request
does not release the house.  Moreover an authorized actor (the requesting
tenant or the landlord of the house) successfully deletes a found request
of any status. -/
theorem C8_delete_request_house_frame (db : DB) (id userId : Nat) (role : String)
    (request : RentRequest) (house : House)
    (hfind : RentRequest.findById db id = some request)
    (hhouse : House.findById db request.house_id = some house)
    (hauth : (role = ROLE_TENANT ∧ request.user_id = userId) ∨
             (role = ROLE_LANDLORD ∧ house.landlord_id = userId)) :
    ((deleteRentRequest db id userId role).1).houses = db.houses ∧
    (deleteRentRequest db id userId role).2 = Result.ok id := by
  have hmem : request ∈ db.requests := List.mem_of_find?_eq_some hfind
  have hkey : request.id = id := by simpa using List.find?_some hfind
  have hany : db.requests.any (fun r => r.id == id) = true :=
    any_beq_of_mem (fun r => r.id) id db.requests request hmem hkey
  unfold deleteRentRequest
  rw [hfind]
  simp only []
  rw [hhouse]
  simp only []
  rcases hauth with ⟨hr, hu⟩ | ⟨hr, hu⟩ <;>
    simp [hr, hu, roleIsAdmin_false, RentRequest.del, hany]

/-- C8 witness: deleting the accepted request 1 of store wDbAcc as tenant
10 succeeds and the house list is untouched (house 1 stays rented). -/
theorem C8_delete_request_house_frame_witness :
    ((deleteRentRequest wDbAcc 1 10 ROLE_TENANT).1).houses = wDbAcc.houses ∧
    (deleteRentRequest wDbAcc 1 10 ROLE_TENANT).2 = Result.ok 1 :=
  C8_delete_request_house_frame wDbAcc 1 10 ROLE_TENANT
    { wReq with status := RRStatus.accepted }
    { wHouse with status := HStatus.rented, tenant_id := some 10 }
    (by decide) (by decide) (Or.inl ⟨rfl, by decide⟩)

/-! C7: house update never writes the tenant column. -/

/-- C7: the house update operation (controller path) leaves the tenant
column of every house row unchanged for every input, because the controller
deletes updates.tenant_id before calling House.update; and it answers an
error whenever the input holds none of the updatable fields. -/
theorem C7_house_update_never_touches_tenant (db : DB) (id userId : Nat)
    (role : String) (updates : HouseUpdates) :
    ((updateHouse db id userId role updates).1).houses.map (fun h => h.tenant_id) =
      db.houses.map (fun h => h.tenant_id) ∧
    (updates.title = none → updates.description = none → updates.address = none →
     updates.rent_amount = none → updates.bedrooms = none → updates.bathrooms = none →
     updates.status = none → updates.is_active = none → updates.image_url = none →
     ((updateHouse db id userId role updates).2).isErr = true) := by
  constructor
  · unfold updateHouse
    cases hf : House.findById db id with
    | none => rfl
    | some house =>
      simp only []
      split
      · rfl
      · split
        · rfl
        · split
          · rfl
          · split
            · rfl
            · simp only [House.update]
              split
              · rfl
              · split <;>
                · simp only [List.map_map]
                  apply List.map_congr_left
                  intro h _
                  simp only [Function.comp]
                  split
                  · simp [applyHouseUpdates]
                  · rfl
  · intro h1 h2 h3 h4 h5 h6 h7 h8 h9
    unfold updateHouse
    cases hf : House.findById db id with
    | none => rfl
    | some house =>
      simp only []
      split
      · rfl
      · split
        · rfl
        · split
          · rfl
          · split
            · rfl
            · simp [House.update, HouseUpdates.hasAny, h1, h2, h3, h4, h5, h6,
                h7, h8, h9, Result.isErr]

/-- C7 witness: an input carrying only a tenant_id assignment is stripped
and rejected, and house 1 keeps its empty tenant column. -/
theorem C7_house_update_never_touches_tenant_witness :
    ((updateHouse wDb 1 7 ROLE_LANDLORD { tenant_id := some (some 99) }).1).houses.map
        (fun h => h.tenant_id) = wDb.houses.map (fun h => h.tenant_id) ∧
    ((updateHouse wDb 1 7 ROLE_LANDLORD { tenant_id := some (some 99) }).2).isErr = true := by
  have h := C7_house_update_never_touches_tenant wDb 1 7 ROLE_LANDLORD
    { tenant_id := some (some 99) }
  exact ⟨h.1, h.2 rfl rfl rfl rfl rfl rfl rfl rfl rfl⟩

/-! C2: the rented-iff-tenant invariant. -/

/-- The per-house invariant of the spec: status is rented exactly when a
tenant is assigned. -/
def houseInv (h : House) : Prop := h.status = HStatus.rented ↔ h.tenant_id ≠ none

/-- The invariant over the whole store. -/
def dbInv (db : DB) : Prop := ∀ h ∈ db.houses, houseInv h

lemma dbInv_of_houses_eq (db1 db2 : DB) (h : db2.houses = db1.houses)
    (hinv : dbInv db1) : dbInv db2 := by
  intro x hx
  exact hinv x (h ▸ hx)

/-- updateStatusAndTenant preserves the invariant whenever the written pair
itself satisfies it. -/
lemma updateStatusAndTenant_inv (db : DB) (hId : Nat) (s : HStatus)
    (t : Option Nat) (hinv : dbInv db) (hpair : s = HStatus.rented ↔ t ≠ none) :
    dbInv ((House.updateStatusAndTenant db hId s t).1) := by
  intro h hmem
  simp only [House.updateStatusAndTenant] at hmem
  rcases List.mem_map.mp hmem with ⟨h0, h0mem, rfl⟩
  by_cases hid : (h0.id == hId) = true
  · simp only [hid, if_pos rfl]
    exact hpair
  · simp only [Bool.not_eq_true] at hid
    simp only [hid, Bool.false_eq_true, if_false]
    exact hinv h0 h0mem

lemma finishStatusUpdate_houses (db : DB) (id : Nat) (s : RRStatus) :
    ((finishStatusUpdate db id s).1).houses = db.houses := by
  unfold finishStatusUpdate RentRequest.updateStatus
  simp only []
  split <;> rfl

lemma finishStatusUpdate_fst (db : DB) (id : Nat) (s : RRStatus) :
    (finishStatusUpdate db id s).1 = (RentRequest.updateStatus db id s).1 := by
  unfold finishStatusUpdate
  simp only []
  split <;> rfl

lemma finishStatusUpdate_snd_ok (db : DB) (id : Nat) (s : RRStatus)
    (h : db.requests.any (fun r => r.id == id) = true) :
    (finishStatusUpdate db id s).2 = Result.ok ⟨id, s⟩ := by
  unfold finishStatusUpdate
  simp only [updateStatus_snd]
  simp [h]

lemma finishStatusUpdate_mem (db : DB) (id : Nat) (s : RRStatus)
    (r : RentRequest) (hmm : r ∈ db.requests) (hid : (r.id == id) = false) :
    r ∈ ((finishStatusUpdate db id s).1).requests := by
  rw [finishStatusUpdate_fst]
  unfold RentRequest.updateStatus
  simp only []
  have hx := List.mem_map_of_mem
    (fun r => if r.id == id then { r with status := s } else r) hmm
  simp only [] at hx
  rwa [if_neg (by rw [hid]; exact Bool.false_ne_true)] at hx

/-- Every path of the transition controller leaves the house rows either
untouched, or written through updateStatusAndTenant with the rented pair of
the accepted request, or with the release pair. -/
lemma transition_houses_shape (db : DB) (id : Nat) (statusStr : String)
    (userId : Nat) (role : String) :
    ((updateRentRequestStatus db id statusStr userId role).1).houses = db.houses ∨
    (∃ hId u, ((updateRentRequestStatus db id statusStr userId role).1).houses =
      ((House.updateStatusAndTenant db hId HStatus.rented (some u)).1).houses) ∨
    (∃ hId, ((updateRentRequestStatus db id statusStr userId role).1).houses =
      ((House.updateStatusAndTenant db hId HStatus.available none).1).houses) := by
  unfold updateRentRequestStatus
  cases hp : parseRRStatus statusStr with
  | none => exact Or.inl rfl
  | some newStatus =>
    simp only []
    cases hf : RentRequest.findById db id with
    | none => exact Or.inl rfl
    | some request =>
      simp only []
      cases hh : House.findById db request.house_id with
      | none => exact Or.inl rfl
      | some house =>
        simp only []
        split
        · exact Or.inl rfl
        · split
          · exact Or.inl rfl
          · split
            · split
              · split
                · exact Or.inl rfl
                · refine Or.inr (Or.inl ⟨request.house_id, request.user_id, ?_⟩)
                  rw [finishStatusUpdate_houses, rejectSiblings_houses]
              · split
                · split
                  · refine Or.inr (Or.inr ⟨request.house_id, ?_⟩)
                    rw [finishStatusUpdate_houses]
                  · exact Or.inl (finishStatusUpdate_houses db id newStatus)
                · split
                  · split
                    · exact Or.inl rfl
                    · exact Or.inl (finishStatusUpdate_houses db id newStatus)
                  · exact Or.inl (finishStatusUpdate_houses db id newStatus)
            · split
              · split
                · split
                  · refine Or.inr (Or.inr ⟨request.house_id, ?_⟩)
                    rw [finishStatusUpdate_houses]
                  · exact Or.inl (finishStatusUpdate_houses db id newStatus)
                · exact Or.inl (finishStatusUpdate_houses db id newStatus)
              · exact Or.inl rfl

/-- C2: the claim that the rented-iff-tenant invariant survives every
operation including the house update is false on this code base; amended:
it is preserved by house creation, by every rent-request transition, by
rent-request creation and deletion, and by the status-and-tenant operation
whenever the written pair itself satisfies it — but the house update
operation can break it by writing status alone. -/
theorem C2_invariant_preservation (db : DB) (hinv : dbInv db) :
    (∀ landlordId role t d a rent bd ba,
      dbInv ((createHouse db landlordId role t d a rent bd ba).1)) ∧
    (∀ id statusStr userId role,
      dbInv ((updateRentRequestStatus db id statusStr userId role).1)) ∧
    (∀ userId role hid msg, dbInv ((createRentRequest db userId role hid msg).1)) ∧
    (∀ id userId role, dbInv ((deleteRentRequest db id userId role).1)) ∧
    (∀ hId s t, (s = HStatus.rented ↔ t ≠ none) →
      dbInv ((House.updateStatusAndTenant db hId s t).1)) := by
  refine ⟨?_, ?_, ?_, ?_, ?_⟩
  · intro landlordId role t d a rent bd ba
    unfold createHouse
    split
    · exact hinv
    · split
      · exact hinv
      · split
        · exact hinv
        · split
          · exact hinv
          · split
            · exact hinv
            · intro h hmem
              simp only [House.create, List.mem_append, List.mem_singleton] at hmem
              rcases hmem with hmem | rfl
              · exact hinv h hmem
              · simp [houseInv]
  · intro id statusStr userId role
    rcases transition_houses_shape db id statusStr userId role with h | ⟨hId, u, h⟩ | ⟨hId, h⟩
    · exact dbInv_of_houses_eq db _ h hinv
    · exact dbInv_of_houses_eq _ _ h
        (updateStatusAndTenant_inv db hId HStatus.rented (some u) hinv (by simp))
    · exact dbInv_of_houses_eq _ _ h
        (updateStatusAndTenant_inv db hId HStatus.available none hinv (by simp))
  · intro userId role hid msg
    unfold createRentRequest
    split
    · exact hinv
    · cases hid with
      | none => exact hinv
      | some v =>
        simp only []
        split
        · exact hinv
        · cases hh : House.findById db v with
          | none => exact hinv
          | some house =>
            simp only []
            split
            · exact hinv
            · split
              · exact hinv
              · split
                · exact hinv
                · exact fun h hmem => hinv h hmem
  · intro id userId role
    unfold deleteRentRequest
    cases hf : RentRequest.findById db id with
    | none => exact hinv
    | some request =>
      simp only []
      cases hh : House.findById db request.house_id with
      | none => exact hinv
      | some house =>
        simp only []
        split
        · exact hinv
        · simp only [RentRequest.del]
          split
          · exact hinv
          · exact fun h hmem => hinv h hmem
  · intro hId s t hpair
    exact updateStatusAndTenant_inv db hId s t hinv hpair

/-- C2 witness: the amended preservation applied to the concrete base
store, instantiated at the accept transition of request 1. -/
theorem C2_invariant_preservation_witness :
    dbInv ((updateRentRequestStatus wDb 1 "accepted" 7 ROLE_LANDLORD).1) := by
  have h := C2_invariant_preservation wDb
    (by unfold dbInv houseInv; decide)
  exact h.2.1 1 "accepted" 7 ROLE_LANDLORD

/-- C2 counterexample: the store satisfies the invariant, the landlord
updates house 1 with status rented through the house update operation, the
update succeeds, and the invariant is now broken (status rented while
tenant is still empty). -/
theorem C2_counterexample_house_update_breaks_invariant :
    dbInv wDb ∧
    ((updateHouse wDb 1 7 ROLE_LANDLORD { status := some HStatus.rented }).2).isOk = true ∧
    ¬ dbInv ((updateHouse wDb 1 7 ROLE_LANDLORD { status := some HStatus.rented }).1) := by
  refine ⟨by unfold dbInv houseInv; decide, by decide, ?_⟩
  unfold dbInv houseInv
  decide

/-! C9: applying a payment. -/

/-- C9: for a found payment owned by the acting tenant, the payment
application accumulates paid_amount by the paid amount and flips the status
to paid exactly when the cumulative amount reaches the amount owed (else
pending), recording method and date; and it fails without any change when
the payment status is already paid. -/
theorem C9_make_payment_accumulates (db : DB) (paymentId userId : Nat)
    (a : Rat) (pm : Option String) (now : Int) (payment : RentPayment)
    (hfind : RentPayment.findById db paymentId = some payment)
    (hten : payment.tenant_id = userId) :
    (payment.status ≠ PayStatus.paid →
      (makePayment db paymentId userId ROLE_TENANT a pm now).2 = Result.ok paymentId ∧
      RentPayment.findById ((makePayment db paymentId userId ROLE_TENANT a pm now).1)
          paymentId =
        some { payment with
                paid_amount := payment.paid_amount + a,
                status := if payment.paid_amount + a >= payment.amount
                  then PayStatus.paid else PayStatus.pending,
                payment_method := pm, payment_date := some now }) ∧
    (payment.status = PayStatus.paid →
      (makePayment db paymentId userId ROLE_TENANT a pm now).1 = db ∧
      ((makePayment db paymentId userId ROLE_TENANT a pm now).2).isErr = true) := by
  have hmem : payment ∈ db.payments := List.mem_of_find?_eq_some hfind
  have hkey : payment.id = paymentId := by simpa using List.find?_some hfind
  have hany : db.payments.any (fun p => p.id == paymentId) = true :=
    any_beq_of_mem (fun p => p.id) paymentId db.payments payment hmem hkey
  have hupd : RentPayment.update db paymentId
      { paid_amount := some (payment.paid_amount + a),
        payment_method := some pm, payment_date := some (some now),
        status := some (if payment.paid_amount + a >= payment.amount
          then PayStatus.paid else PayStatus.pending) } =
      ({ db with payments := db.payments.map (fun p =>
          if p.id == paymentId then applyPaymentUpdates
            { paid_amount := some (payment.paid_amount + a),
              payment_method := some pm, payment_date := some (some now),
              status := some (if payment.paid_amount + a >= payment.amount
                then PayStatus.paid else PayStatus.pending) } p else p) }, true) := by
    unfold RentPayment.update
    rw [if_neg (by simp [PaymentUpdates.hasAny])]
    rw [hany]
  constructor
  · intro hnp
    unfold makePayment
    rw [hfind]
    simp only []
    rw [if_neg (by simp [hten])]
    rw [if_neg (by simp [hnp])]
    rw [hupd]
    simp only [Bool.not_true, Bool.false_eq_true, if_false]
    refine ⟨trivial, ?_⟩
    unfold RentPayment.findById
    rw [find?_beq_map (fun p => p.id) paymentId _
      (fun x => by simp only []; split <;> simp [applyPaymentUpdates]) db.payments]
    have hfind2 : db.payments.find? (fun x => x.id == paymentId) = some payment := hfind
    rw [hfind2]
    simp [hkey, applyPaymentUpdates]
  · intro hp
    unfold makePayment
    rw [hfind]
    simp only []
    rw [if_neg (by simp [hten])]
    rw [if_pos (by simp [hp])]
    exact ⟨rfl, rfl⟩

/-- A payment row for the witness: tenant 10, 30 of 100 paid. -/
def wPay : RentPayment :=
  { id := 1, tenant_id := 10, house_id := 1, due_date := 0, amount := 100,
    paid_amount := 30, status := PayStatus.pending, payment_method := none,
    payment_date := none }

/-- Base store extended with the payment row. -/
def wDbPay : DB := { wDb with payments := [wPay] }

/-- C9 witness: tenant 10 pays 70 on the 100-amount payment with 30 already
paid; the cumulative 100 meets the amount owed, so the record flips to
paid. -/
theorem C9_make_payment_accumulates_witness :
    (makePayment wDbPay 1 10 ROLE_TENANT 70 (some "card") 5).2 = Result.ok 1 ∧
    RentPayment.findById ((makePayment wDbPay 1 10 ROLE_TENANT 70 (some "card") 5).1) 1 =
      some { wPay with
              paid_amount := wPay.paid_amount + 70,
              status := if wPay.paid_amount + 70 >= wPay.amount
                then PayStatus.paid else PayStatus.pending,
              payment_method := some "card", payment_date := some 5 } :=
  (C9_make_payment_accumulates wDbPay 1 10 70 (some "card") 5 wPay
    (by decide) (by decide)).1 (by decide)

/-! C6: the duplicate-pending guard at request creation. -/

/-- Some pending request of this user for this house exists in the store. -/
def hasPendingFor (db : DB) (userId hid : Nat) : Prop :=
  ∃ r ∈ db.requests,
    r.user_id = userId ∧ r.house_id = hid ∧ r.status = RRStatus.pending

/-- C6: with the other creation preconditions in place (tenant role, house
found and available, requester not the landlord), creating a rent request
answers the 409 conflict and inserts nothing when the user already has a
pending request for this house, and otherwise succeeds, appending exactly
one new request row in status pending. -/
theorem C6_duplicate_pending_conflict (db : DB) (userId hid : Nat)
    (msg : Option String) (house : House)
    (hid0 : hid ≠ 0)
    (hhouse : House.findById db hid = some house)
    (havail : house.status = HStatus.available)
    (hown : house.landlord_id ≠ userId) :
    (hasPendingFor db userId hid →
      createRentRequest db userId ROLE_TENANT (some hid) msg =
        (db, Result.err ⟨409, "Conflict"⟩)) ∧
    (¬ hasPendingFor db userId hid →
      (createRentRequest db userId ROLE_TENANT (some hid) msg).2 =
        Result.ok db.nextRequestId ∧
      ((createRentRequest db userId ROLE_TENANT (some hid) msg).1).requests =
        db.requests ++
          [{ id := db.nextRequestId, user_id := userId, house_id := hid,
             message := msg, status := RRStatus.pending }]) := by
  have htot : (0 < (RentRequest.findByUserId db userId 1 0
      (some RRStatus.pending) (some hid)).total) ↔ hasPendingFor db userId hid := by
    unfold RentRequest.findByUserId hasPendingFor
    simp only []
    rw [length_filter_pos_iff]
    constructor
    · rintro ⟨r, hr, hpr⟩
      simp only [Bool.and_eq_true, beq_iff_eq] at hpr
      exact ⟨r, hr, hpr.1.1, hpr.2, hpr.1.2⟩
    · rintro ⟨r, hr, h1, h2, h3⟩
      exact ⟨r, hr, by simp [h1, h2, h3]⟩
  constructor
  · intro hdup
    unfold createRentRequest
    rw [if_neg (by simp)]
    simp only []
    rw [if_neg (by simp [hid0])]
    rw [hhouse]
    simp only []
    rw [if_neg (by simp [havail])]
    rw [if_neg (by simp [hown])]
    rw [if_pos (by simpa using htot.mpr hdup)]
  · intro hnone
    unfold createRentRequest
    rw [if_neg (by simp)]
    simp only []
    rw [if_neg (by simp [hid0])]
    rw [hhouse]
    simp only []
    rw [if_neg (by simp [havail])]
    rw [if_neg (by simp [hown])]
    rw [if_neg (by simpa using fun hc => hnone (htot.mp hc))]
    exact ⟨rfl, rfl⟩

/-- C6 witness: tenant 10 already has pending request 1 for house 1, so a
second creation answers 409 and leaves the store unchanged; tenant 12 has
none and succeeds with the new pending request 3. -/
theorem C6_duplicate_pending_conflict_witness :
    (createRentRequest wDb 10 ROLE_TENANT (some 1) none =
      (wDb, Result.err ⟨409, "Conflict"⟩)) ∧
    ((createRentRequest wDb 12 ROLE_TENANT (some 1) none).2 =
      Result.ok wDb.nextRequestId) := by
  constructor
  · exact (C6_duplicate_pending_conflict wDb 10 1 none wHouse (by decide)
      (by decide) (by decide) (by decide)).1
      (by unfold hasPendingFor; decide)
  · exact ((C6_duplicate_pending_conflict wDb 12 1 none wHouse (by decide)
      (by decide) (by decide) (by decide)).2
      (by unfold hasPendingFor; decide)).1

/-! C10: house creation validation. -/

/-- C10: the claim that creation succeeds exactly when rent is positive and
the room counts are non-negative is false on this code base; amended: for a
landlord actor and non-empty text fields, creation succeeds exactly when
rent, bedrooms and bathrooms are all strictly positive (a zero count is
falsy in JS and hits the missing-required-fields branch); on success the
new house has status available and active flag true; when rent is
non-positive or a count is negative the outcome is a 400 validation
error with the store unchanged. -/
theorem C10_create_house_validation (db : DB) (landlordId : Nat)
    (t d a : String) (rent : Rat) (bd ba : Int)
    (ht : t ≠ "") (hd : d ≠ "") (ha : a ≠ "") :
    (((createHouse db landlordId ROLE_LANDLORD t d a rent bd ba).2).isOk = true ↔
      (0 < rent ∧ 0 < bd ∧ 0 < ba)) ∧
    ((0 < rent ∧ 0 < bd ∧ 0 < ba) →
      ((createHouse db landlordId ROLE_LANDLORD t d a rent bd ba).1).houses =
        db.houses ++
          [{ id := db.nextHouseId, landlord_id := landlordId, title := t,
             description := d, address := a, rent_amount := rent,
             bedrooms := bd, bathrooms := ba, status := HStatus.available,
             is_active := true, tenant_id := none }]) ∧
    ((rent ≤ 0 ∨ bd < 0 ∨ ba < 0) →
      ((createHouse db landlordId ROLE_LANDLORD t d a rent bd ba).2).isErr = true ∧
      (createHouse db landlordId ROLE_LANDLORD t d a rent bd ba).1 = db) := by
  have hreduce : ∀ (hr : 0 < rent) (hb : 0 < bd) (hc : 0 < ba),
      createHouse db landlordId ROLE_LANDLORD t d a rent bd ba =
        ((House.create db landlordId t d a rent bd ba).1,
         Result.ok (House.create db landlordId t d a rent bd ba).2) := by
    intro hr hb hc
    unfold createHouse
    rw [if_neg (by simp)]
    rw [if_neg (by simp [ht, hd, ha, ne_of_gt hr, ne_of_gt hb, ne_of_gt hc])]
    rw [if_neg (by simpa using not_le.mpr hr)]
    rw [if_neg (by simpa using not_lt.mpr (le_of_lt hb))]
    rw [if_neg (by simpa using not_lt.mpr (le_of_lt hc))]
  have herr : ∀ (hfail : ¬(0 < rent ∧ 0 < bd ∧ 0 < ba)),
      ((createHouse db landlordId ROLE_LANDLORD t d a rent bd ba).2).isErr = true ∧
      (createHouse db landlordId ROLE_LANDLORD t d a rent bd ba).1 = db := by
    intro hfail
    unfold createHouse
    rw [if_neg (by simp)]
    split
    · exact ⟨rfl, rfl⟩
    · next hmiss =>
      have hrne : rent ≠ 0 := fun hh => hmiss (by simp [hh])
      have hbne : bd ≠ 0 := fun hh => hmiss (by simp [hh])
      have hcne : ba ≠ 0 := fun hh => hmiss (by simp [hh])
      split
      · exact ⟨rfl, rfl⟩
      · split
        · exact ⟨rfl, rfl⟩
        · split
          · exact ⟨rfl, rfl⟩
          · next hler hlb hlc =>
            exfalso
            apply hfail
            exact ⟨lt_of_le_of_ne (not_lt.mp (fun hh => hler (le_of_lt hh)))
              (Ne.symm hrne), by omega, by omega⟩
  refine ⟨?_, ?_, ?_⟩
  · constructor
    · intro hok
      by_contra hfail
      have h1 := (herr hfail).1
      cases hres : (createHouse db landlordId ROLE_LANDLORD t d a rent bd ba).2 with
      | ok x =>
        rw [hres] at h1
        simp [Result.isErr] at h1
      | err e =>
        rw [hres] at hok
        simp [Result.isOk] at hok
    · rintro ⟨hr, hb, hc⟩
      rw [hreduce hr hb hc]
      rfl
  · rintro ⟨hr, hb, hc⟩
    rw [hreduce hr hb hc]
    simp [House.create]
  · intro hbad
    apply herr
    rintro ⟨hr, hb, hc⟩
    rcases hbad with h | h | h
    · exact (not_le.mpr hr) h
    · omega
    · omega

/-- C10 witness: creation with rent 100, two bedrooms, one bathroom
succeeds and appends the new available active house. -/
theorem C10_create_house_validation_witness :
    (((createHouse wDb 7 ROLE_LANDLORD "t" "d" "a" 100 2 1).2).isOk = true ↔
      (0 < (100 : Rat) ∧ 0 < (2 : Int) ∧ 0 < (1 : Int))) ∧
    ((createHouse wDb 7 ROLE_LANDLORD "t" "d" "a" 100 2 1).1).houses =
      wDb.houses ++
        [{ id := wDb.nextHouseId, landlord_id := 7, title := "t",
           description := "d", address := "a", rent_amount := 100,
           bedrooms := 2, bathrooms := 1, status := HStatus.available,
           is_active := true, tenant_id := none }] := by
  have h := C10_create_house_validation wDb 7 "t" "d" "a" 100 2 1
    (by decide) (by decide) (by decide)
  exact ⟨h.1, h.2.1 ⟨by norm_num, by norm_num, by norm_num⟩⟩

/-- C10 counterexample: rent 100 is positive and the counts zero bedrooms,
one bathroom are non-negative, yet creation fails (zero is falsy in the
required-fields check) and inserts nothing, refuting the claimed exact
success condition. -/
theorem C10_counterexample_zero_bedrooms :
    (0 < (100 : Rat) ∧ (0 : Int) ≤ 0 ∧ (0 : Int) ≤ 1) ∧
    ((createHouse wDb 7 ROLE_LANDLORD "t" "d" "a" 100 0 1).2).isErr = true ∧
    (createHouse wDb 7 ROLE_LANDLORD "t" "d" "a" 100 0 1).1 = wDb := by
  refine ⟨⟨by norm_num, by norm_num, by norm_num⟩, by decide, by decide⟩

/-! C3: cancellation release. -/

/-- C3: when a cancellation of a found request goes through successfully
and the request was accepted with the house tenant still matching its
requester, the house is released to available with no tenant; when the
request was pending, the house rows are untouched by the cancellation
(whatever its outcome). -/
theorem C3_cancel_release (db : DB) (id userId : Nat) (role : String)
    (request : RentRequest) (house : House)
    (hfind : RentRequest.findById db id = some request)
    (hhouse : House.findById db request.house_id = some house) :
    (request.status = RRStatus.accepted →
      house.tenant_id = some request.user_id →
      ((updateRentRequestStatus db id "cancelled" userId role).2).isOk = true →
      House.findById ((updateRentRequestStatus db id "cancelled" userId role).1)
          request.house_id =
        some { house with status := HStatus.available, tenant_id := none }) ∧
    (request.status = RRStatus.pending →
      ((updateRentRequestStatus db id "cancelled" userId role).1).houses =
        db.houses) := by
  have hhid : (house.id == request.house_id) = true := by
    simpa using List.find?_some hhouse
  constructor
  · intro hacc hten hok
    unfold updateRentRequestStatus at hok ⊢
    rw [show parseRRStatus "cancelled" = some RRStatus.cancelled from rfl] at hok ⊢
    rw [hfind] at hok ⊢
    simp only [] at hok ⊢
    rw [hhouse] at hok ⊢
    simp only [roleIsAdmin_false, hacc, hten] at hok ⊢
    by_cases hA : ((!(role == ROLE_LANDLORD && house.landlord_id == userId) &&
        !(role == ROLE_TENANT && request.user_id == userId) && !false)) = true
    · rw [if_pos hA] at hok
      simp [Result.isOk] at hok
    · rw [if_neg hA] at hok ⊢
      by_cases hX : (!(request.user_id == userId && role == ROLE_TENANT)) = true
      · rw [if_pos (by simp [hX])] at hok
        simp [Result.isOk] at hok
      · have hX2 : request.user_id = userId ∧ role = ROLE_TENANT := by
          simpa using hX
        rw [if_neg (by simp [hX2.1, hX2.2])] at hok ⊢
        have hLfalse : (role == ROLE_LANDLORD && house.landlord_id == userId) = false := by
          simp [hX2.2, ROLE_TENANT, ROLE_LANDLORD]
        rw [if_neg (by simp [hLfalse])] at hok ⊢
        rw [if_pos (by simp)] at hok ⊢
        rw [if_pos (by simp)] at hok ⊢
        rw [if_pos (by simp)] at hok ⊢
        unfold House.findById
        rw [finishStatusUpdate_houses]
        unfold House.updateStatusAndTenant
        simp only []
        rw [find?_beq_map (fun h => h.id) request.house_id _
          (fun x => by simp only []; split <;> rfl) db.houses]
        have hhouse2 : db.houses.find? (fun x => x.id == request.house_id) =
            some house := hhouse
        rw [hhouse2]
        simp [show house.id = request.house_id by simpa using hhid]
  · intro hpend
    unfold updateRentRequestStatus
    rw [show parseRRStatus "cancelled" = some RRStatus.cancelled from rfl]
    rw [hfind]
    simp only []
    rw [hhouse]
    simp only [roleIsAdmin_false, hpend]
    split
    · rfl
    · rw [if_neg (by simp)]
      split
      · rw [if_neg (by simp)]
        rw [if_neg (by simp)]
        rw [if_neg (by simp)]
        exact finishStatusUpdate_houses db id RRStatus.cancelled
      · rw [if_pos (by simp)]
        rw [if_neg (by simp)]
        exact finishStatusUpdate_houses db id RRStatus.cancelled

/-- C3 witness: tenant 10 cancels their accepted request 1 in the accepted
state, releasing house 1; and in the base store a cancellation of the
pending request leaves the house rows untouched. -/
theorem C3_cancel_release_witness :
    (House.findById ((updateRentRequestStatus wDbAcc 1 "cancelled" 10 ROLE_TENANT).1) 1 =
      some { { wHouse with status := HStatus.rented, tenant_id := some 10 } with
              status := HStatus.available, tenant_id := none }) ∧
    ((updateRentRequestStatus wDb 1 "cancelled" 10 ROLE_TENANT).1).houses =
      wDb.houses := by
  constructor
  · exact (C3_cancel_release wDbAcc 1 10 ROLE_TENANT
      { wReq with status := RRStatus.accepted }
      { wHouse with status := HStatus.rented, tenant_id := some 10 }
      (by decide) (by decide)).1 (by decide) (by decide) (by decide)
  · exact (C3_cancel_release wDb 1 10 ROLE_TENANT wReq wHouse
      (by decide) (by decide)).2 (by decide)

/-! C1: the accept transition and its bulk side effects. -/

/-- Reduction of the controller on the accept path: with the request found
and pending, the house found, available and owned by the actor, the call is
the house occupancy write, the sibling rejection loop over the fetched page
of pending requests, and the final status persist. -/
lemma accept_run (db : DB) (id userId : Nat) (request : RentRequest)
    (house : House)
    (hfind : RentRequest.findById db id = some request)
    (hpend : request.status = RRStatus.pending)
    (hhouse : House.findById db request.house_id = some house)
    (havail : house.status = HStatus.available)
    (hll : house.landlord_id = userId) :
    updateRentRequestStatus db id "accepted" userId ROLE_LANDLORD =
      finishStatusUpdate
        (rejectSiblings request.id
          (RentRequest.findAll
            (House.updateStatusAndTenant db request.house_id HStatus.rented
              (some request.user_id)).1 9999 0
            { status := some RRStatus.pending,
              houseId := some request.house_id }).requests
          (House.updateStatusAndTenant db request.house_id HStatus.rented
            (some request.user_id)).1)
        id RRStatus.accepted := by
  unfold updateRentRequestStatus
  rw [show parseRRStatus "accepted" = some RRStatus.accepted from rfl]
  rw [hfind]
  simp only []
  rw [hhouse]
  simp only [roleIsAdmin_false, hpend]
  rw [if_neg (by simp [hll])]
  rw [if_neg (by simp)]
  rw [if_pos (by simp [hll])]
  rw [if_pos (by simp)]
  rw [if_neg (by simp [havail])]

/-- C1: the claim that a successful acceptance rejects every other pending
request of the house so that none remain pending is false in general (the
bulk fetch is capped at LIMIT 9999); amended: it holds whenever at most
9999 pending requests match the fetch.  Under that cap the acceptance
answers 200, rents the house to the requester, marks the request accepted,
turns every other pending request of the house into rejected, and leaves no
request of the house pending. -/
theorem C1_accept_side_effects (db : DB) (id userId : Nat)
    (request : RentRequest) (house : House)
    (hfind : RentRequest.findById db id = some request)
    (hpend : request.status = RRStatus.pending)
    (hhouse : House.findById db request.house_id = some house)
    (havail : house.status = HStatus.available)
    (hll : house.landlord_id = userId)
    (hcap : (db.requests.filter (rrMatches
        { status := some RRStatus.pending,
          houseId := some request.house_id })).length ≤ 9999) :
    (updateRentRequestStatus db id "accepted" userId ROLE_LANDLORD).2 =
      Result.ok ⟨id, RRStatus.accepted⟩ ∧
    House.findById (updateRentRequestStatus db id "accepted" userId ROLE_LANDLORD).1
        request.house_id =
      some { house with status := HStatus.rented, tenant_id := some request.user_id } ∧
    RentRequest.findById
        (updateRentRequestStatus db id "accepted" userId ROLE_LANDLORD).1 id =
      some { request with status := RRStatus.accepted } ∧
    (∀ r ∈ db.requests, r.house_id = request.house_id →
      r.status = RRStatus.pending → r.id ≠ id →
      { r with status := RRStatus.rejected } ∈
        ((updateRentRequestStatus db id "accepted" userId ROLE_LANDLORD).1).requests) ∧
    (∀ r ∈ ((updateRentRequestStatus db id "accepted" userId ROLE_LANDLORD).1).requests,
      r.house_id = request.house_id → r.status ≠ RRStatus.pending) := by
  have hkey : request.id = id := by simpa using List.find?_some hfind
  have hmem : request ∈ db.requests := List.mem_of_find?_eq_some hfind
  have hhid : (house.id == request.house_id) = true := by
    simpa using List.find?_some hhouse
  rw [accept_run db id userId request house hfind hpend hhouse havail hll]
  have hpage : (RentRequest.findAll
      (House.updateStatusAndTenant db request.house_id HStatus.rented
        (some request.user_id)).1 9999 0
      { status := some RRStatus.pending,
        houseId := some request.house_id }).requests =
      db.requests.filter (rrMatches
        { status := some RRStatus.pending, houseId := some request.house_id }) := by
    unfold RentRequest.findAll
    simp only []
    rw [updateStatusAndTenant_requests]
    rw [List.drop_zero, List.take_of_length_le hcap]
  rw [hpage]
  have hFid : ∀ r : RentRequest,
      (if r.id != request.id &&
          ((db.requests.filter (rrMatches
            { status := some RRStatus.pending,
              houseId := some request.house_id })).map RentRequest.id).contains r.id
        then { r with status := RRStatus.rejected } else r).id = r.id := by
    intro r
    split <;> rfl
  have hdb2 : (rejectSiblings request.id
      (db.requests.filter (rrMatches
        { status := some RRStatus.pending, houseId := some request.house_id }))
      (House.updateStatusAndTenant db request.house_id HStatus.rented
        (some request.user_id)).1).requests =
      db.requests.map (fun r =>
        if r.id != request.id &&
            ((db.requests.filter (rrMatches
              { status := some RRStatus.pending,
                houseId := some request.house_id })).map RentRequest.id).contains r.id
          then { r with status := RRStatus.rejected } else r) := by
    rw [rejectSiblings_requests]
    rw [updateStatusAndTenant_requests]
  have hany2 : ((rejectSiblings request.id
      (db.requests.filter (rrMatches
        { status := some RRStatus.pending, houseId := some request.house_id }))
      (House.updateStatusAndTenant db request.house_id HStatus.rented
        (some request.user_id)).1).requests).any (fun r => r.id == id) = true := by
    rw [hdb2]
    refine List.any_eq_true.mpr ⟨_, List.mem_map_of_mem _ hmem, ?_⟩
    simp [hFid request, hkey]
  unfold finishStatusUpdate
  simp only []
  rw [show (RentRequest.updateStatus (rejectSiblings request.id
      (db.requests.filter (rrMatches
        { status := some RRStatus.pending, houseId := some request.house_id }))
      (House.updateStatusAndTenant db request.house_id HStatus.rented
        (some request.user_id)).1) id RRStatus.accepted).2 = true from hany2]
  rw [if_neg (by simp)]
  refine ⟨rfl, ?_, ?_, ?_, ?_⟩
  · unfold House.findById
    rw [updateStatus_houses, rejectSiblings_houses]
    unfold House.updateStatusAndTenant
    simp only []
    rw [find?_beq_map (fun h => h.id) request.house_id _
      (fun x => by simp only []; split <;> rfl) db.houses]
    have hhouse2 : db.houses.find? (fun x => x.id == request.house_id) =
        some house := hhouse
    rw [hhouse2]
    simp [show house.id = request.house_id by simpa using hhid]
  · unfold RentRequest.findById RentRequest.updateStatus
    simp only []
    rw [find?_id_map_rr id
      (fun r => if r.id == id then { r with status := RRStatus.accepted } else r)
      (fun x => by simp only []; split <;> rfl) _]
    rw [hdb2]
    rw [find?_id_map_rr id
      (fun r => if r.id != request.id &&
          ((db.requests.filter (rrMatches
            { status := some RRStatus.pending,
              houseId := some request.house_id })).map RentRequest.id).contains r.id
        then { r with status := RRStatus.rejected } else r)
      hFid db.requests]
    have hfind2 : db.requests.find? (fun x => x.id == id) = some request := hfind
    rw [hfind2]
    simp [hkey]
  · intro r hr hhe hpr hne
    have hin : r ∈ db.requests.filter (rrMatches
        { status := some RRStatus.pending, houseId := some request.house_id }) :=
      List.mem_filter.mpr ⟨hr, by simp [rrMatches, hpr, hhe]⟩
    have hc : ((db.requests.filter (rrMatches
        { status := some RRStatus.pending,
          houseId := some request.house_id })).map RentRequest.id).contains r.id = true :=
      List.elem_eq_true_of_mem (List.mem_map_of_mem RentRequest.id hin)
    unfold RentRequest.updateStatus
    simp only []
    rw [hdb2]
    have himg : { r with status := RRStatus.rejected } ∈
        db.requests.map (fun r =>
          if r.id != request.id &&
              ((db.requests.filter (rrMatches
                { status := some RRStatus.pending,
                  houseId := some request.house_id })).map RentRequest.id).contains r.id
            then { r with status := RRStatus.rejected } else r) := by
      have := List.mem_map_of_mem (fun r =>
        if r.id != request.id &&
            ((db.requests.filter (rrMatches
              { status := some RRStatus.pending,
                houseId := some request.house_id })).map RentRequest.id).contains r.id
          then { r with status := RRStatus.rejected } else r) hr
      simp only [] at this
      rwa [if_pos (by
        rw [Bool.and_eq_true]
        exact ⟨bne_iff_ne.mpr (fun hh => hne (by rw [hh, hkey])), hc⟩)] at this
    have := List.mem_map_of_mem (fun r =>
      if r.id == id then { r with status := RRStatus.accepted } else r) himg
    simp only [] at this
    rwa [if_neg (by simp [hne])] at this
  · intro r1 hr1 hhe hps
    unfold RentRequest.updateStatus at hr1
    simp only [] at hr1
    rw [hdb2] at hr1
    rcases List.mem_map.mp hr1 with ⟨r2, hr2, rfl⟩
    rcases List.mem_map.mp hr2 with ⟨r, hr, rfl⟩
    by_cases h1 : ((if r.id != request.id &&
        ((db.requests.filter (rrMatches
          { status := some RRStatus.pending,
            houseId := some request.house_id })).map RentRequest.id).contains r.id
      then { r with status := RRStatus.rejected } else r).id == id) = true
    · rw [if_pos h1] at hps hhe
      revert hps
      split <;> simp
    · rw [if_neg h1] at hps hhe
      by_cases h2 : (r.id != request.id &&
          ((db.requests.filter (rrMatches
            { status := some RRStatus.pending,
              houseId := some request.house_id })).map RentRequest.id).contains r.id) = true
      · rw [if_pos h2] at hps
        simp at hps
      · rw [if_neg h2] at hps hhe h1
        apply h2
        have hrid : r.id ≠ id := by simpa using h1
        have hin : r ∈ db.requests.filter (rrMatches
            { status := some RRStatus.pending,
              houseId := some request.house_id }) :=
          List.mem_filter.mpr ⟨hr, by simp [rrMatches, hps, hhe]⟩
        have hc := List.elem_eq_true_of_mem (List.mem_map_of_mem RentRequest.id hin)
        rw [Bool.and_eq_true]
        exact ⟨bne_iff_ne.mpr (fun hh => hrid (by rw [hh, hkey])), hc⟩

/-- C1 witness: in the base store with two pending requests for house 1
(well under the cap), the landlord accepts request 1: the house is rented
to tenant 10, request 1 is accepted, request 2 is rejected, and no request
of house 1 stays pending. -/
theorem C1_accept_side_effects_witness :
    (updateRentRequestStatus wDb 1 "accepted" 7 ROLE_LANDLORD).2 =
      Result.ok ⟨1, RRStatus.accepted⟩ ∧
    House.findById (updateRentRequestStatus wDb 1 "accepted" 7 ROLE_LANDLORD).1 1 =
      some { wHouse with status := HStatus.rented, tenant_id := some 10 } ∧
    RentRequest.findById (updateRentRequestStatus wDb 1 "accepted" 7 ROLE_LANDLORD).1 1 =
      some { wReq with status := RRStatus.accepted } := by
  have h := C1_accept_side_effects wDb 1 7 wReq wHouse
    (by decide) (by decide) (by decide) (by decide) (by decide) (by decide)
  exact ⟨h.1, h.2.1, h.2.2.1⟩

/-- Pending request number i of the counterexample store: id i + 1, all for
house 1, distinct requesting users. -/
def cxReq (i : Nat) : RentRequest :=
  { id := i + 1, user_id := i + 100, house_id := 1, message := none,
    status := RRStatus.pending }

/-- k consecutive counterexample requests starting at index i, built head
first so that reasoning never has to evaluate the whole list. -/
def cxFrom : Nat → Nat → List RentRequest
| _, 0 => []
| i, k+1 => cxReq i :: cxFrom (i+1) k

lemma cxFrom_mem : ∀ (k i : Nat) (r : RentRequest), r ∈ cxFrom i k →
    ∃ j, i ≤ j ∧ j < i + k ∧ r = cxReq j := by
  intro k
  induction k with
  | zero => intro i r h; simp [cxFrom] at h
  | succ k ih =>
    intro i r h
    rw [cxFrom] at h
    rcases List.mem_cons.mp h with rfl | h2
    · exact ⟨i, le_refl i, by omega, rfl⟩
    · rcases ih (i+1) r h2 with ⟨j, h1, h2, h3⟩
      exact ⟨j, by omega, by omega, h3⟩

lemma mem_cxFrom : ∀ (k i j : Nat), i ≤ j → j < i + k → cxReq j ∈ cxFrom i k := by
  intro k
  induction k with
  | zero => intro i j h1 h2; omega
  | succ k ih =>
    intro i j h1 h2
    rw [cxFrom]
    rcases Nat.eq_or_lt_of_le h1 with rfl | hlt
    · exact List.mem_cons_self _ _
    · exact List.mem_cons_of_mem _ (ih (i+1) j hlt (by omega))

lemma cxFrom_take : ∀ (k i m : Nat), (cxFrom i k).take m = cxFrom i (min m k) := by
  intro k
  induction k with
  | zero => intro i m; simp [cxFrom]
  | succ k ih =>
    intro i m
    cases m with
    | zero => simp [cxFrom]
    | succ m => simp [cxFrom, List.take, ih, Nat.succ_min_succ]

/-- Counterexample store: one available house and 10001 pending requests
for it — two more than the LIMIT 9999 of the bulk fetch. -/
@[reducible] def cxDb : DB :=
  { houses := [wHouse], requests := cxFrom 0 10001,
    payments := [], nextHouseId := 2, nextRequestId := 10002 }

/-- C1 counterexample: with 10001 pending requests for house 1, the
landlord accepts request 1 successfully, yet request 10001 (one of the rows
beyond the LIMIT 9999 fetch window) is still pending for house 1 in the
resulting store — contradicting the claim that no pending request
remains. -/
theorem C1_counterexample_bulk_reject_cap :
    (updateRentRequestStatus cxDb 1 "accepted" 7 ROLE_LANDLORD).2 =
      Result.ok ⟨1, RRStatus.accepted⟩ ∧
    cxReq 10000 ∈ ((updateRentRequestStatus cxDb 1 "accepted" 7 ROLE_LANDLORD).1).requests ∧
    (cxReq 10000).house_id = 1 ∧ (cxReq 10000).id ≠ 1 ∧
    (cxReq 10000).status = RRStatus.pending := by
  have hreq : cxDb.requests = cxFrom 0 10001 := rfl
  have hfind : RentRequest.findById cxDb 1 = some (cxReq 0) := by
    unfold RentRequest.findById
    rw [hreq, cxFrom]
    simp [List.find?, cxReq]
  have hhouse : House.findById cxDb (cxReq 0).house_id = some wHouse := by decide
  rw [accept_run cxDb 1 7 (cxReq 0) wHouse hfind rfl hhouse rfl rfl]
  have hpage : (RentRequest.findAll
      (House.updateStatusAndTenant cxDb (cxReq 0).house_id HStatus.rented
        (some (cxReq 0).user_id)).1 9999 0
      { status := some RRStatus.pending,
        houseId := some (cxReq 0).house_id }).requests = cxFrom 0 9999 := by
    unfold RentRequest.findAll
    simp only []
    rw [updateStatusAndTenant_requests, hreq]
    rw [List.drop_zero]
    have hfull : (cxFrom 0 10001).filter (rrMatches
        { status := some RRStatus.pending, houseId := some (cxReq 0).house_id }) =
        cxFrom 0 10001 :=
      List.filter_eq_self.mpr (by
        intro r hrm
        rcases cxFrom_mem 10001 0 r hrm with ⟨j, _, _, rfl⟩
        simp [cxReq, rrMatches])
    rw [hfull, cxFrom_take]
    norm_num
  rw [hpage]
  have hmem0 : cxReq 0 ∈ cxFrom 0 10001 := mem_cxFrom 10001 0 0 (by omega) (by omega)
  have hmemS : cxReq 10000 ∈ cxFrom 0 10001 :=
    mem_cxFrom 10001 0 10000 (by omega) (by omega)
  have hdb2 := rejectSiblings_requests (cxReq 0).id (cxFrom 0 9999)
    (House.updateStatusAndTenant cxDb (cxReq 0).house_id HStatus.rented
      (some (cxReq 0).user_id)).1
  rw [updateStatusAndTenant_requests, hreq] at hdb2
  have hcond0 : ((cxReq 0).id != (cxReq 0).id &&
      ((cxFrom 0 9999).map RentRequest.id).contains (cxReq 0).id) = false := by
    rw [bne_self_eq_false, Bool.false_and]
  have hany : ((rejectSiblings (cxReq 0).id (cxFrom 0 9999)
      (House.updateStatusAndTenant cxDb (cxReq 0).house_id HStatus.rented
        (some (cxReq 0).user_id)).1).requests).any (fun r => r.id == 1) = true := by
    rw [hdb2]
    refine List.any_eq_true.mpr ⟨_, List.mem_map_of_mem _ hmem0, ?_⟩
    rw [if_neg (by rw [hcond0]; exact Bool.false_ne_true)]
    rfl
  have hcf : ((cxFrom 0 9999).map RentRequest.id).contains (cxReq 10000).id =
      false := by
    by_contra hc
    rw [Bool.not_eq_false] at hc
    have hmm := List.mem_of_elem_eq_true hc
    rcases List.mem_map.mp hmm with ⟨r, hr, hid⟩
    rcases cxFrom_mem 9999 0 r hr with ⟨j, _, hj, rfl⟩
    have h1 : j + 1 = 10000 + 1 := hid
    omega
  refine ⟨?_, ?_, rfl, by decide, rfl⟩
  · exact finishStatusUpdate_snd_ok _ 1 RRStatus.accepted hany
  · refine finishStatusUpdate_mem _ 1 RRStatus.accepted _ ?_ (by decide)
    rw [hdb2]
    have himg := List.mem_map_of_mem (fun r =>
      if r.id != (cxReq 0).id &&
          ((cxFrom 0 9999).map RentRequest.id).contains r.id
        then { r with status := RRStatus.rejected } else r) hmemS
    simp only [] at himg
    rwa [if_neg (by rw [hcf, Bool.and_false]; exact Bool.false_ne_true)] at himg

end Estate
